import Mathlib

/-!
Verification development for the issue-queue promotion bot
(scripts/promote_next.py and scripts/promote_next_github.py).

The Python scripts are shallowly embedded as pure Lean functions.  All
remote-tracker I/O (REST and GraphQL calls) is abstracted by an explicit
read-only environment record, so each API call site becomes a lookup in
that record.  Timestamps (ISO 8601 strings in the source, which compare
lexicographically in chronological order) are modelled as natural numbers
counting seconds.  Persistent JSON state (logs/processed_files.json) is
modelled as an explicit state value threaded through the functions that
load and save it.  Side effects other than state writes (review
submission, merging, issue creation, error logging) are modelled as an
explicit list of emitted actions.
-/

/-! ### String helpers

Python's substring operator (needle in hay) and a few other string
operations used by the scripts, implemented over the character data of
the strings. -/

/-- Does the needle occur at the very front of the character list? -/
def charsMatchAt : List Char → List Char → Bool
  | [], _ => true
  | _ :: _, [] => false
  | a :: as, b :: bs => a = b && charsMatchAt as bs

/-- Does the needle occur anywhere in the haystack character list? -/
def strContainsAux (needle : List Char) : List Char → Bool
  | [] => charsMatchAt needle []
  | h :: t => charsMatchAt needle (h :: t) || strContainsAux needle t

/-- Python needle in hay on strings. -/
def strContains (hay needle : String) : Bool :=
  strContainsAux needle.data hay.data

/-- Python str.lower for the ASCII range, over the character data (the
position-based core implementation does not reduce in the kernel). -/
def strLower (s : String) : String :=
  String.mk (s.data.map Char.toLower)

/-- Python str.upper for the ASCII range, over the character data. -/
def strUpper (s : String) : String :=
  String.mk (s.data.map Char.toUpper)

/-- Python str.startswith, over the character data. -/
def strStartsWith (s p : String) : Bool :=
  charsMatchAt p.data s.data

/-- Python str.endswith, over the character data. -/
def strEndsWith (s p : String) : Bool :=
  charsMatchAt p.data.reverse s.data.reverse

/-- Split off the maximal run of leading decimal digits (Python regex \d+). -/
def leadingDigitsAux : List Char → List Char × List Char
  | [] => ([], [])
  | c :: rest =>
    if c.isDigit then
      let p := leadingDigitsAux rest
      (c :: p.1, p.2)
    else ([], c :: rest)

/-- Numeric value of a run of decimal digit characters. -/
def digitsToNat (ds : List Char) : Nat :=
  ds.foldl (fun n c => n * 10 + (c.toNat - 48)) 0

/-- Python's str.splitlines restricted to the newline character:
an empty string gives no lines, a single trailing newline does not
produce a trailing empty line. -/
def pySplitLines (s : String) : List String :=
  if s = "" then []
  else
    let parts := s.splitOn "\n"
    if strEndsWith s "\n" then parts.dropLast else parts

/-- extract_issue_number_from_title (promote_next.py:1361).
First the regex (digits)(dash or whitespace) anchored at the start,
then the fallback regex of exactly three leading digits. -/
def extract_issue_number_from_title (title : String) : Option Nat :=
  let cs := title.data
  let p := leadingDigitsAux cs
  let sepOk := match p.2 with
    | c :: _ => c = '-' || c.isWhitespace
    | [] => false
  if !p.1.isEmpty && sepOk then some (digitsToNat p.1)
  else
    match cs with
    | a :: b :: c :: _ =>
      if a.isDigit && b.isDigit && c.isDigit then some (digitsToNat [a, b, c]) else none
    | _ => none

/-- Python format specifier 03d: decimal digits left padded with zeros to
width three. -/
def pad3 (n : Nat) : String :=
  let s := toString n
  if s.length < 3 then String.mk (List.replicate (3 - s.length) '0') ++ s else s

/-! ### Data model

Records mirroring the JSON payloads the scripts read from the tracker
API, with only the fields the scripts access. -/

/-- One review of a pull request (element of GET pulls/N/reviews). -/
structure Review where
  reviewerLogin : String
  state : String
  submittedAt : Nat
  deriving DecidableEq, Repr

/-- One check run of the head commit (element of GET commits/SHA/check-runs). -/
structure CheckRun where
  name : String
  status : Option String
  conclusion : Option String
  deriving DecidableEq, Repr

/-- The combined commit status object (GET commits/SHA/status). -/
structure CombinedStatus where
  state : String
  deriving DecidableEq, Repr

/-- Result of get_pr_status_checks (promote_next.py:875): the combined
status and the check runs, each none when the fetch failed. -/
structure StatusInfo where
  status : Option CombinedStatus
  checkRuns : Option (List CheckRun)
  deriving DecidableEq, Repr

/-- A pull request as returned by the tracker (list item or single fetch).
mergeable is the tracker's tri-state: some true = yes, some false = no,
none = unknown (JSON null, which is falsy in Python). -/
structure PRDetails where
  number : Nat
  state : String
  title : String
  body : String
  authorLogin : String
  createdAt : Nat
  mergedAt : Option Nat
  merged : Bool
  draft : Bool
  mergeable : Option Bool
  mergeableState : Option String
  mergeCommitSha : Option String
  requestedReviewers : List String
  requestedTeams : List String
  deriving DecidableEq, Repr

/-- A tracker issue with the fields the scripts access. -/
structure Issue where
  number : Nat
  title : String
  state : String
  assignees : List String
  createdAt : Nat
  closedAt : Option Nat
  deriving DecidableEq, Repr

/-- One issue timeline event (GET issues/N/timeline).  commitId is some
only when the event carries a truthy commit_id. -/
structure TimelineEvent where
  event : String
  actorLogin : String
  commitId : Option String
  body : String
  deriving DecidableEq, Repr

/-- One record of the persisted processed-files state
(logs/processed_files.json, key processed_files). -/
structure FileEntry where
  filename : String
  issueNumber : Nat
  status : String
  createdAt : Nat
  completedAt : Option Nat
  deriving DecidableEq, Repr

/-- The active-issue part of the persisted resume context. -/
structure ActiveIssueInfo where
  number : Nat
  title : String
  deriving DecidableEq, Repr

/-- The persisted resume context written by resume_bot_state. -/
structure ResumeContext where
  activeIssue : Option ActiveIssueInfo
  deriving DecidableEq, Repr

/-- The persisted state file (logs/processed_files.json). -/
structure ProcState where
  processedFiles : List FileEntry
  lastCompletedFile : Option String
  resumeContext : Option ResumeContext
  deriving DecidableEq, Repr

/-- Read-only model of the remote tracker and the local filesystem during
one decision cycle.  Each field abstracts one kind of API request:
a none result models the request raising an exception where the script
catches one.  localFiles models sorted(ISSUES_DIR.glob("*.md")), none
meaning the issues directory does not exist. -/
structure Env where
  botIssuesAsc : List Issue
  recentPrs : List PRDetails
  prsByUpdated : List PRDetails
  timeline : Nat → Option (List TimelineEvent)
  prById : Nat → Option PRDetails
  prByIdLater : Nat → Option PRDetails
  issueByNumber : Nat → Option Issue
  reviewsFor : Nat → List Review
  statusFor : Nat → StatusInfo
  localFiles : Option (List String)
  fileContent : String → String
  issuesFetchOk : Bool
  issueCreationOk : Bool
  newIssueNumber : Nat
  approveFails : Nat → Bool
  mergeFails : Nat → Bool
  now : Nat

/-- Externally visible side effects of one decision cycle, other than
writes to the local state file. -/
inductive BotAction where
  | approve (prNumber : Nat)
  | merge (prNumber : Nat) (commitTitle commitMessage mergeMethod : String)
  | createIssueFrom (filename : String) (issueNumber : Nat)
  | errorLog (msg : String)
  deriving DecidableEq, Repr

/-- Is the action a merge request to the tracker? -/
def BotAction.isMergeAction : BotAction → Bool
  | .merge _ _ _ _ => true
  | _ => false

/-- Pull-request number of a merge action (0 otherwise). -/
def BotAction.mergeNumberOf : BotAction → Nat
  | .merge n _ _ _ => n
  | _ => 0

/-- Commit message of a merge action (empty otherwise). -/
def BotAction.mergeMessageOf : BotAction → String
  | .merge _ _ msg _ => msg
  | _ => ""

/-- Merge method of a merge action (empty otherwise). -/
def BotAction.mergeMethodOf : BotAction → String
  | .merge _ _ _ m => m
  | _ => ""

/-! ### Readiness Evaluator (is_pr_ready_to_merge, promote_next.py:897) -/

/-- Latest review per reviewer: the loop at promote_next.py:928 keeping,
for each reviewer login, the review with the greatest submitted_at
(strictly later submissions replace the stored one). -/
def updateLatestReview (acc : List (String × Review)) (r : Review) : List (String × Review) :=
  match acc.find? (fun p => p.1 = r.reviewerLogin) with
  | none => acc ++ [(r.reviewerLogin, r)]
  | some prev =>
    if prev.2.submittedAt < r.submittedAt then
      acc.map (fun p => if p.1 = r.reviewerLogin then (p.1, r) else p)
    else acc

/-- Association list from reviewer login to that reviewer's latest review. -/
def latestReviews (reviews : List Review) : List (String × Review) :=
  reviews.foldl updateLatestReview []

/-- Python truthiness of the mergeable field after
pr_details.get("mergeable", True): JSON null (unknown) is falsy. -/
def mergeableTruthy : Option Bool → Bool
  | some b => b
  | none => false

/-- Blocking verdict of a single check run (loop body at
promote_next.py:971): in-progress, failed, cancelled or timed-out runs
block the merge. -/
def checkRunBlock (cr : CheckRun) : Option String :=
  if cr.status = some "in_progress" then
    some ("PR has in-progress check: " ++ cr.name)
  else if cr.conclusion = some "failure" || cr.conclusion = some "cancelled"
      || cr.conclusion = some "timed_out" then
    some ("PR has failed check: " ++ cr.name ++ " (" ++ cr.conclusion.getD "" ++ ")")
  else none

/-- Status-check portion of the agent-authored branch of
is_pr_ready_to_merge (promote_next.py:959-980): combined commit status
first, then the check runs, otherwise ready. -/
def botStatusChecksVerdict (si : StatusInfo) : Bool × String :=
  let combinedBlock : Option (Bool × String) :=
    match si.status with
    | some st =>
      if st.state = "failure" || st.state = "error" then
        some (false, "PR has failing status checks (state: " ++ st.state ++ ")")
      else if st.state = "pending" then
        some (false, "PR has pending status checks")
      else none
    | none => none
  match combinedBlock with
  | some r => r
  | none =>
    match (si.checkRuns.getD []).findSome? checkRunBlock with
    | some reason => (false, reason)
    | none => (true, "Copilot PR is ready to merge")

/-- The checks of is_pr_ready_to_merge that follow the two mergeability
checks (promote_next.py:911-986): draft, WIP markers, review verdicts,
then the agent / non-agent asymmetry. -/
def readyAfterMergeableChecks (env : Env) (pr : PRDetails) : Bool × String :=
  if pr.draft then (false, "PR is still in draft mode")
  else
    let titleLower := strLower pr.title
    if strContains titleLower "[wip]" || strContains titleLower "wip:"
        || strContains titleLower "work in progress" then
      (false, "PR has WIP (Work in Progress) indicators")
    else
      let latest := latestReviews (env.reviewsFor pr.number)
      let approvedCount := latest.countP (fun p => p.2.state = "APPROVED")
      let changesRequestedCount := latest.countP (fun p => p.2.state = "CHANGES_REQUESTED")
      if changesRequestedCount > 0 then
        (false, "PR has " ++ toString changesRequestedCount ++ " reviews requesting changes")
      else
        let hasPendingReviews := pr.requestedReviewers.length > 0 || pr.requestedTeams.length > 0
        let isBotPr := pr.authorLogin = "copilot-swe-agent"
        if isBotPr then
          if approvedCount = 0 && hasPendingReviews then
            (false, "Copilot PR has pending review requests ("
              ++ toString pr.requestedReviewers.length ++ " reviewers, "
              ++ toString pr.requestedTeams.length ++ " teams)")
          else botStatusChecksVerdict (env.statusFor pr.number)
        else
          if approvedCount = 0 then (false, "PR needs at least one approval")
          else (true, "PR is ready to merge (" ++ toString approvedCount ++ " approvals)")

/-- is_pr_ready_to_merge (promote_next.py:897): the ordered short-circuit
rejection checks.  The first two early returns concern mergeability:
a blocked mergeable_state, then a falsy mergeable field (conflicts). -/
def is_pr_ready_to_merge (env : Env) (pr : PRDetails) : Bool × String :=
  if pr.mergeableState = some "blocked" then
    (false, "PR is blocked (mergeable_state: blocked)")
  else if mergeableTruthy pr.mergeable = false then
    (false, "PR is not mergeable (conflicts or other issues)")
  else readyAfterMergeableChecks env pr

/-! ### Stable sorting by a numeric key

Python's list.sort is stable; with reverse=True, elements with equal keys
keep their original relative order.  Insertion sort that inserts each new
element after all already placed elements whose key does not order it
strictly earlier implements exactly this. -/

/-- Insert, keeping a descending-by-key list descending; equal keys keep
earlier elements first. -/
def insertDescBy (k : α → Nat) (x : α) : List α → List α
  | [] => [x]
  | y :: ys => if k x ≤ k y then y :: insertDescBy k x ys else x :: y :: ys

/-- Stable sort, descending by key (list.sort(key=k, reverse=True)). -/
def stableSortDescBy (k : α → Nat) (l : List α) : List α :=
  l.foldl (fun acc x => insertDescBy k x acc) []

/-- Insert, keeping an ascending-by-key list ascending; equal keys keep
earlier elements first. -/
def insertAscBy (k : α → Nat) (x : α) : List α → List α
  | [] => [x]
  | y :: ys => if k y ≤ k x then y :: insertAscBy k x ys else x :: y :: ys

/-- Stable sort, ascending by key (list.sort(key=k)). -/
def stableSortAscBy (k : α → Nat) (l : List α) : List α :=
  l.foldl (fun acc x => insertAscBy k x acc) []

/-! ### Resolution Matcher (find_related_prs_for_issue, promote_next.py:568) -/

/-- The per-pull-request acceptance test of find_related_prs_for_issue:
skip requests created more than five minutes (300 s) before the issue,
then require agent authorship together with one of the three textual or
temporal correlation strategies.  The subtraction guard is written in
added form (pr + 300 < issue) to match the integer semantics of the
datetime comparison pr_created < issue_created - timedelta(minutes=5). -/
def relatedPrTest (issue : Issue) (pr : PRDetails) : Bool :=
  if pr.createdAt + 300 < issue.createdAt then false
  else
    let prBody := pr.body
    let prTitle := pr.title
    let prAuthor := pr.authorLogin
    let numTag := "#" ++ toString issue.number
    let directReference :=
      strContains prBody numTag || strContains prTitle numTag ||
      strContains (strLower prBody) ("issue " ++ toString issue.number) ||
      strContains (strLower prBody) ("fixes #" ++ toString issue.number) ||
      strContains (strLower prBody) ("closes #" ++ toString issue.number)
    let wipMarker := strContains (strUpper prTitle) "[WIP]" || strContains (strUpper prBody) "[WIP]"
    let recentCopilotPr :=
      prAuthor = "copilot-swe-agent" && pr.createdAt ≤ issue.createdAt + 86400
    let fileReference :=
      match extract_issue_number_from_title issue.title with
      | none => false
      | some n =>
        let pats := [pad3 n, "#" ++ toString n, "issue " ++ toString n]
        pats.any (fun p => strContains (strLower prTitle) p || strContains (strLower prBody) p)
    prAuthor = "copilot-swe-agent" &&
      (directReference || (wipMarker && recentCopilotPr) || (recentCopilotPr && fileReference))

/-- find_related_prs_for_issue (promote_next.py:568): filter the recent
pull requests by the acceptance test, then sort by creation time with the
most recent first. -/
def find_related_prs_for_issue (env : Env) (issue : Issue) : List PRDetails :=
  stableSortDescBy (fun pr => pr.createdAt) (env.recentPrs.filter (relatedPrTest issue))

/-! ### Issue completion (is_issue_done, get_closing_pr_for_issue) -/

/-- get_closing_pr_for_issue (promote_next.py:541): the first timeline
event that closed the issue with a commit, matched against the merge
commit of the pull requests listed by recency of update; none when the
timeline fetch failed, no such event exists, or no pull request matches. -/
def get_closing_pr_for_issue (env : Env) (issueNumber : Nat) : Option PRDetails :=
  match env.timeline issueNumber with
  | none => none
  | some events =>
    match events.find? (fun e => e.event = "closed" && e.commitId.isSome) with
    | none => none
    | some e => env.prsByUpdated.find? (fun pr => pr.mergeCommitSha == e.commitId)

/-- is_issue_done (promote_next.py:516): a closed issue with no closing
pull request counts as done (manual close); with a closing pull request
it is done exactly when that request was merged. -/
def is_issue_done (env : Env) (issue : Issue) : Bool :=
  if issue.state ≠ "closed" then false
  else
    match get_closing_pr_for_issue env issue.number with
    | none => true
    | some closingPr => closingPr.mergedAt.isSome

/-! ### Workflow State Machine (check_copilot_workflow_status, promote_next.py:988) -/

/-- check_copilot_workflow_status (promote_next.py:988).  A closed issue
is completed outright; an issue without the agent assigned is
waiting_for_copilot; otherwise the timeline and the linked pull requests
decide.  The empty-string result models the implicit None return of the
source when a linked pull request is in a state other than open or
closed (impossible for tracker data); a failed timeline fetch falls back
to the assignee check. -/
def check_copilot_workflow_status (env : Env) (issue : Issue) : String :=
  if issue.state = "closed" then "completed"
  else
    let copilotAssigned := issue.assignees.any (fun a => a = "copilot-swe-agent")
    if copilotAssigned = false then "waiting_for_copilot"
    else
      match env.timeline issue.number with
      | none =>
        if copilotAssigned then "copilot_working" else "waiting_for_copilot"
      | some events =>
        let agentBodyEvent := fun (e : TimelineEvent) (marks : List String) =>
          (e.event = "commented" || e.event = "cross-referenced") &&
          e.actorLogin = "copilot-swe-agent" &&
          marks.any (fun m => strContains (strLower e.body) m)
        let eyesReaction :=
          events.any (fun e => e.event = "subscribed" && e.actorLogin = "copilot-swe-agent")
        let copilotStarted := events.any (fun e => agentBodyEvent e ["started work", "working on"])
        let copilotFinished := events.any (fun e => agentBodyEvent e ["finished work", "completed"])
        match find_related_prs_for_issue env issue with
        | latestPr :: _ =>
          if latestPr.state = "closed" then "completed"
          else if latestPr.state = "open" then
            match env.prById latestPr.number with
            | some pd =>
              if (is_pr_ready_to_merge env pd).1 then "pr_ready_for_review" else "copilot_working"
            | none =>
              if latestPr.draft then "copilot_working" else "pr_ready_for_review"
          else ""
        | [] =>
          if copilotStarted && !copilotFinished then "copilot_working"
          else if eyesReaction then "copilot_working"
          else "waiting_for_copilot"

/-! ### Approve-then-merge (auto_approve_and_merge_pr, promote_next.py:1099) -/

/-- The merge commit message of auto_approve_and_merge_pr
(promote_next.py:1174): it resolves the given issue. -/
def mergeCommitMessage (issueNumber : Nat) : String :=
  ("Resolves #" ++ toString issueNumber) ++
    "\n\nAuto-merged by GitHub Issue Queue Bot after Copilot completion.\n\nCopilot has successfully implemented the requested feature/fix.\nAll automated checks have passed."

/-- auto_approve_and_merge_pr (promote_next.py:1099).  Locates the first
open related pull request, re-checks readiness, submits an approval
review unless an approving bot review already exists, waits briefly,
re-fetches the request (prByIdLater) and re-checks readiness, and only
then merges with the squash strategy and a commit message that resolves
the issue.  The Boolean result mirrors the source's return value; the
action list records the review and merge requests actually issued. -/
def auto_approve_and_merge_pr (env : Env) (issue : Issue) : Bool × List BotAction :=
  let relatedPrs := find_related_prs_for_issue env issue
  match relatedPrs.find? (fun pr => pr.state = "open") with
  | none => (false, [])
  | some relatedPr =>
    let prNumber := relatedPr.number
    match env.prById prNumber with
    | none => (false, [])
    | some prDetails =>
      if (is_pr_ready_to_merge env prDetails).1 = false then (false, [])
      else
        let existingReviews := env.reviewsFor prNumber
        let botReview := existingReviews.find? (fun r =>
          r.reviewerLogin = "github-actions[bot]" || r.reviewerLogin = "dependabot[bot]"
            || strContains (strLower r.reviewerLogin) "bot")
        let needApprove : Bool :=
          match botReview with
          | some br => !(br.state = "APPROVED")
          | none => true
        let approveActs := if needApprove then [BotAction.approve prNumber] else []
        if needApprove && env.approveFails prNumber then (false, approveActs)
        else
          match env.prByIdLater prNumber with
          | none => (false, approveActs)
          | some updatedPr =>
            if (is_pr_ready_to_merge env updatedPr).1 = false then (false, approveActs)
            else
              let commitTitle := "Merge PR #" ++ toString prNumber ++ ": " ++ relatedPr.title
              (!(env.mergeFails prNumber),
                approveActs ++
                  [BotAction.merge prNumber commitTitle (mergeCommitMessage issue.number) "squash"])

/-! ### State Store (promote_next.py:311-456) -/

/-- Update the first element satisfying the test (a Python for-loop with
break). -/
def updateFirstBy (p : α → Bool) (upd : α → α) : List α → List α
  | [] => []
  | x :: xs => if p x then upd x :: xs else x :: updateFirstBy p upd xs

/-- Update the last element satisfying the test (a Python dict built from
the list maps each key to its last occurrence). -/
def updateLastBy (p : α → Bool) (upd : α → α) (l : List α) : List α :=
  (updateFirstBy p upd l.reverse).reverse

/-- mark_file_as_processing (promote_next.py:311): drop any existing
record for the file, then append a fresh processing record stamped with
the current time. -/
def mark_file_as_processing (now : Nat) (filename : String) (issueNumber : Nat)
    (s : ProcState) : ProcState :=
  let pf := s.processedFiles.filter (fun f => !(f.filename = filename))
  { s with processedFiles :=
      pf ++ [{ filename := filename, issueNumber := issueNumber, status := "processing",
               createdAt := now, completedAt := none }] }

/-- mark_file_as_completed (promote_next.py:335): set the first record
for the file to completed with a completion timestamp, and record the
file as the last completed one. -/
def mark_file_as_completed (now : Nat) (filename : String) (s : ProcState) : ProcState :=
  { s with
    processedFiles := updateFirstBy (fun f => f.filename = filename)
      (fun f => { f with status := "completed", completedAt := some now }) s.processedFiles,
    lastCompletedFile := some filename }

/-- Local files matching the glob pattern NNN-*.md for a given number
(empty when the issues directory does not exist). -/
def matchingFiles (env : Env) (n : Nat) : List String :=
  match env.localFiles with
  | none => []
  | some files => files.filter (fun f => strStartsWith f (pad3 n ++ "-") && strEndsWith f ".md")

/-- One iteration of the reconciliation loop of
sync_processed_files_with_github (promote_next.py:382-430): map the
tracker issue back to a local file via the number extracted from its
title, then update the (last) record for that file, or append a new
record, with the status re-derived from is_issue_done. -/
def syncFold (env : Env) (pf : List FileEntry) (issue : Issue) : List FileEntry :=
  match extract_issue_number_from_title issue.title with
  | none => pf
  | some fileNumber =>
    match matchingFiles env fileNumber with
    | [] => pf
    | filename :: _ =>
      let isCompleted := is_issue_done env issue
      let status := if isCompleted then "completed" else "processing"
      if pf.any (fun f => f.filename = filename) then
        updateLastBy (fun f => f.filename = filename)
          (fun f =>
            if f.status ≠ status ∨ f.issueNumber ≠ issue.number then
              { f with
                status := status,
                issueNumber := issue.number,
                completedAt :=
                  if status = "completed" && f.completedAt = none then
                    some (issue.closedAt.getD env.now)
                  else f.completedAt }
            else f) pf
      else
        pf ++ [{ filename := filename, issueNumber := issue.number, status := status,
                 createdAt := issue.createdAt,
                 completedAt :=
                   if status = "completed" then some (issue.closedAt.getD env.now) else none }]

/-- sync_processed_files_with_github (promote_next.py:350): fold the
reconciliation step over all bot issues (oldest first), then re-derive
last_completed_file as the completed record with the greatest file
number; an API failure leaves the state as loaded. -/
def sync_processed_files_with_github (env : Env) (s : ProcState) : ProcState :=
  if env.issuesFetchOk = false then s
  else
    let pf := env.botIssuesAsc.foldl (syncFold env) s.processedFiles
    let completedFiles := pf.filter (fun f => f.status = "completed")
    let lastCompleted :=
      match (stableSortAscBy
          (fun f => (extract_issue_number_from_title f.filename).getD 0) completedFiles).getLast? with
      | some f => some f.filename
      | none => s.lastCompletedFile
    { s with processedFiles := pf, lastCompletedFile := lastCompleted }

/-! ### Local Queue Reader (promote_next.py:458-501, 1204-1233) -/

/-- get_next_unprocessed_file (promote_next.py:458).  A missing issues
directory is reported with an error log and no file; an empty directory
yields no file; otherwise the state is first reconciled with the
tracker, a file still marked processing suspends dispatch, and the first
file not in the completed set is returned.  The result carries the
possibly reconciled state and the emitted log actions. -/
def get_next_unprocessed_file (env : Env) (s : ProcState) :
    Option String × ProcState × List BotAction :=
  match env.localFiles with
  | none => (none, s, [BotAction.errorLog "Issues directory does not exist"])
  | some mdFiles =>
    if mdFiles.isEmpty then (none, s, [])
    else
      let s1 := sync_processed_files_with_github env s
      let completedNames :=
        (s1.processedFiles.filter (fun f => f.status = "completed")).map (fun f => f.filename)
      let currentlyProcessing :=
        ((s1.processedFiles.filter (fun f => f.status = "processing")).map
          (fun f => f.filename)).getLast?
      let cpTruthy := match currentlyProcessing with
        | some fn => !(fn = "")
        | none => false
      if cpTruthy then (none, s1, [])
      else
        match mdFiles.find? (fun f => !(completedNames.contains f)) with
        | some f => (some f, s1, [])
        | none => (none, s1, [])

/-- File number of a queue filename, regex (digits)- anchored at the
start (promote_next.py:1225). -/
def fileNumberOfName (name : String) : Option Nat :=
  let p := leadingDigitsAux name.data
  match p.2 with
  | c :: _ => if !p.1.isEmpty && c = '-' then some (digitsToNat p.1) else none
  | [] => none

/-- get_next_file (promote_next.py:1204): with no previous issue the
first file, otherwise the first file whose number exceeds the given
one; none when the directory is missing or empty. -/
def get_next_file (env : Env) (afterIssueNumber : Option Nat) : Option String :=
  match env.localFiles with
  | none => none
  | some mdFiles =>
    if mdFiles.isEmpty then none
    else
      match afterIssueNumber with
      | none => mdFiles.head?
      | some n =>
        mdFiles.find? (fun f =>
          match fileNumberOfName f with
          | some m => decide (n < m)
          | none => false)

/-! ### Issue creation and dispatch (promote_next.py:1375-1589, 1719-1737) -/

/-- create_issue (promote_next.py:1375): read the file, fail when it is
empty, split the first line off as the title and the rest as the body.
Label reconciliation and the agent assignment are tracker-side effects
abstracted into the environment, which also assigns the new issue's
number; issueCreationOk models the REST fallback itself failing after
the GraphQL attempt. -/
def create_issue (env : Env) (filename : String) : Except String Issue :=
  let content := env.fileContent filename
  match pySplitLines content with
  | [] => .error "File is empty"
  | title0 :: _ =>
    if env.issueCreationOk = false then .error "issue creation failed"
    else
      .ok { number := env.newIssueNumber, title := title0.trim, state := "open",
            assignees := ["copilot-swe-agent"], createdAt := env.now, closedAt := none }

/-- The dispatch tail of promote_next_issue (promote_next.py:1719-1737):
fetch the next unprocessed file, create its issue, and only after a
successful creation mark the file as processing; any creation failure
returns false with the state exactly as the queue reader left it. -/
def dispatchNextFile (env : Env) (s : ProcState) : Bool × ProcState × List BotAction :=
  match get_next_unprocessed_file env s with
  | (none, s1, acts) => (false, s1, acts)
  | (some f, s1, acts) =>
    match create_issue env f with
    | .error _ => (false, s1, acts)
    | .ok newIssue =>
      (true, mark_file_as_processing env.now f newIssue.number s1,
        acts ++ [BotAction.createIssueFrom f newIssue.number])

/-- The completed-file bookkeeping duplicated in the pr_ready_for_review
and completed branches of promote_next_issue (promote_next.py:1654-1708):
mark the file matched by the issue title number, then any record still
processing under this issue's number. -/
def markIssueFileCompleted (env : Env) (issue : Issue) (s : ProcState) : ProcState :=
  let s1 :=
    match extract_issue_number_from_title issue.title with
    | some n =>
      match matchingFiles env n with
      | fn :: _ => mark_file_as_completed env.now fn s
      | [] => s
    | none => s
  match s1.processedFiles.find?
      (fun e => e.issueNumber = issue.number && e.status = "processing") with
  | some e => mark_file_as_completed env.now e.filename s1
  | none => s1

/-- get_last_bot_issue (promote_next.py:503): the most recently created
bot issue (the issues are stored oldest first). -/
def get_last_bot_issue (env : Env) : Option Issue :=
  env.botIssuesAsc.getLast?

/-- The body of promote_next_issue after the last bot issue has been
determined (promote_next.py:1629-1737): dispatch on the workflow state;
only a successful merge or a completed previous issue lets the cycle
proceed, and only the completed state (or no previous issue at all)
reaches the dispatch of the next file. -/
def promoteStep2 (env : Env) (s : ProcState) (lastIssue : Option Issue) :
    Bool × ProcState × List BotAction :=
  match lastIssue with
  | some issue =>
    let ws := check_copilot_workflow_status env issue
    if ws = "waiting_for_copilot" then (false, s, [])
    else if ws = "copilot_working" then (false, s, [])
    else if ws = "pr_ready_for_review" then
      let r := auto_approve_and_merge_pr env issue
      if r.1 then (true, markIssueFileCompleted env issue s, r.2)
      else (false, s, r.2)
    else if ws = "completed" then
      dispatchNextFile env (markIssueFileCompleted env issue s)
    else (false, s, [])
  | none => dispatchNextFile env s

/-- promote_next_issue (promote_next.py:1591): resolve the resume
context (clearing it when it carries an active issue), find the last bot
issue, and run the workflow dispatch. -/
def promote_next_issue (env : Env) (s : ProcState) : Bool × ProcState × List BotAction :=
  match s.resumeContext with
  | some rc =>
    match rc.activeIssue with
    | some info =>
      let s1 := { s with resumeContext := none }
      match env.issueByNumber info.number with
      | some fresh => promoteStep2 env s1 (some fresh)
      | none => promoteStep2 env s1 (get_last_bot_issue env)
    | none => promoteStep2 env s (get_last_bot_issue env)
  | none => promoteStep2 env s (get_last_bot_issue env)

/-- The active issue recorded in the resume context, if any (the
truthiness test at promote_next.py:1602). -/
def resumeActiveIssue (s : ProcState) : Option ActiveIssueInfo :=
  match s.resumeContext with
  | some rc => rc.activeIssue
  | none => none

/-- The single-run tail of main (promote_next.py:2040-2045):
sys.exit(0 if success else 1) on the result of promote_next_issue.
promote_next_github.py:459-463 ends with the identical wrapper. -/
def mainSingleShotExit (env : Env) (s : ProcState) : Nat :=
  if (promote_next_issue env s).1 then 0 else 1

/-! ### Bounded readiness wait (wait_for_pr_readiness, promote_next.py:671) -/

/-- The polling loop of wait_for_pr_readiness, with the remaining
attempt budget as fuel and the current attempt number as the index into
the sequence of fetch results.  The second component counts the fetch
attempts performed.  A fetch failure (none) is the caught exception
path: sleep and try again.  A ready request stops with true; a reason
mentioning conflicts or closure stops with false as permanently blocked. -/
def waitAux (env : Env) (fetchAt : Nat → Option PRDetails) : Nat → Nat → Bool × Nat
  | 0, _ => (false, 0)
  | remaining + 1, attempt =>
    match fetchAt attempt with
    | none =>
      let r := waitAux env fetchAt remaining (attempt + 1)
      (r.1, r.2 + 1)
    | some pd =>
      let verdict := is_pr_ready_to_merge env pd
      if verdict.1 then (true, 1)
      else if strContains (strLower verdict.2) "conflicts"
          || strContains (strLower verdict.2) "closed" then (false, 1)
      else
        let r := waitAux env fetchAt remaining (attempt + 1)
        (r.1, r.2 + 1)

/-- wait_for_pr_readiness (promote_next.py:671): at most
(max_wait_minutes * 60) // check_interval_seconds fixed-interval
attempts, starting at attempt zero.  The pair returns the source's
Boolean result and, as instrumentation for the bound, the number of
fetch attempts performed. -/
def wait_for_pr_readiness (env : Env) (fetchAt : Nat → Option PRDetails)
    (maxWaitMinutes checkIntervalSeconds : Nat) : Bool × Nat :=
  waitAux env fetchAt (maxWaitMinutes * 60 / checkIntervalSeconds) 0

/-- Readiness of the fetch result at a given attempt index (false when
the fetch fails). -/
def fetchReadyAt (env : Env) (fetchAt : Nat → Option PRDetails) (i : Nat) : Bool :=
  match fetchAt i with
  | some pd => (is_pr_ready_to_merge env pd).1
  | none => false

/-! ### Spec predicates and concrete inputs -/

/-- Number of persisted records with status processing. -/
def processingCount (s : ProcState) : Nat :=
  s.processedFiles.countP (fun f => f.status = "processing")

/-- The State Store invariant of the data model: at most one record has
status processing at any time. -/
def atMostOneProcessing (s : ProcState) : Prop :=
  processingCount s ≤ 1

instance (s : ProcState) : Decidable (atMostOneProcessing s) :=
  inferInstanceAs (Decidable (processingCount s ≤ 1))

/-- A baseline environment: no tracker issues, no pull requests, an
existing but empty issues directory, all fetches succeeding. -/
def envBase : Env where
  botIssuesAsc := []
  recentPrs := []
  prsByUpdated := []
  timeline := fun _ => some []
  prById := fun _ => none
  prByIdLater := fun _ => none
  issueByNumber := fun _ => none
  reviewsFor := fun _ => []
  statusFor := fun _ => { status := none, checkRuns := none }
  localFiles := some []
  fileContent := fun _ => ""
  issuesFetchOk := true
  issueCreationOk := true
  newIssueNumber := 1
  approveFails := fun _ => false
  mergeFails := fun _ => false
  now := 0

/-- The empty persisted state. -/
def stEmpty : ProcState where
  processedFiles := []
  lastCompletedFile := none
  resumeContext := none

/-- A state with exactly one processing record. -/
def stOneProcessing : ProcState where
  processedFiles := [{ filename := "001-a.md", issueNumber := 1, status := "processing",
                       createdAt := 0, completedAt := none }]
  lastCompletedFile := none
  resumeContext := none

/-- An open, ready, agent-authored pull request resolving issue 5. -/
def prOpenReady : PRDetails where
  number := 7
  state := "open"
  title := "Fix the widget"
  body := "Fixes #5"
  authorLogin := "copilot-swe-agent"
  createdAt := 1000
  mergedAt := none
  merged := false
  draft := false
  mergeable := some true
  mergeableState := none
  mergeCommitSha := none
  requestedReviewers := []
  requestedTeams := []

/-- The same pull request with the mergeable field unknown (JSON null). -/
def prUnknownMergeable : PRDetails :=
  { prOpenReady with mergeable := none }

/-- The same pull request authored by a human, with no reviews. -/
def prHumanNoApproval : PRDetails :=
  { prOpenReady with authorLogin := "alice" }

/-- An open tracked issue assigned to the agent. -/
def issueOpen5 : Issue where
  number := 5
  title := "001-widget"
  state := "open"
  assignees := ["copilot-swe-agent"]
  createdAt := 900
  closedAt := none

/-- A closed tracked issue with an empty timeline. -/
def issueClosed3 : Issue where
  number := 3
  title := "001-done"
  state := "closed"
  assignees := []
  createdAt := 100
  closedAt := some 200

/-- An environment in which issue 5 has the open ready pull request 7,
both on first fetch and on the post-approval re-fetch. -/
def envMerge : Env :=
  { envBase with
    recentPrs := [prOpenReady],
    prById := fun _ => some prOpenReady,
    prByIdLater := fun _ => some prOpenReady }

/-- An environment whose issues directory does not exist. -/
def envNoDir : Env :=
  { envBase with localFiles := none }

/-- An environment with a single queued file whose content is empty. -/
def envEmptyFile : Env :=
  { envBase with localFiles := some ["001-empty.md"] }

/-! ### Helper lemmas -/

/-- A needle matches at the front of any of its own extensions. -/
theorem charsMatchAt_self_append (l r : List Char) : charsMatchAt l (l ++ r) = true := by
  induction l with
  | nil => rfl
  | cons c cs ih => simp [charsMatchAt, ih]

/-- The empty needle occurs in every haystack. -/
theorem strContainsAux_nil (l : List Char) : strContainsAux [] l = true := by
  cases l <;> simp [strContainsAux, charsMatchAt]

/-- A string contains each of its own initial segments. -/
theorem strContains_append_self (a b : String) : strContains (a ++ b) a = true := by
  unfold strContains
  rw [String.data_append]
  cases h : a.data with
  | nil => exact strContainsAux_nil b.data
  | cons c cs =>
    have hm := charsMatchAt_self_append (c :: cs) b.data
    simp only [List.cons_append] at hm
    simp [strContainsAux, hm]

/-- Membership in a descending insertion. -/
theorem mem_insertDescBy (k : α → Nat) (x a : α) (l : List α) :
    a ∈ insertDescBy k x l ↔ a = x ∨ a ∈ l := by
  induction l with
  | nil => simp [insertDescBy]
  | cons y ys ih =>
    by_cases h : k x ≤ k y
    · rw [insertDescBy, if_pos h]
      simp only [List.mem_cons, ih]
      tauto
    · rw [insertDescBy, if_neg h]
      simp only [List.mem_cons]

/-- Membership across the fold implementing the descending stable sort. -/
theorem mem_foldl_insertDescBy (k : α → Nat) (l : List α) :
    ∀ acc a, (a ∈ l.foldl (fun acc x => insertDescBy k x acc) acc ↔ a ∈ acc ∨ a ∈ l) := by
  induction l with
  | nil => simp
  | cons x xs ih =>
    intro acc a
    simp only [List.foldl_cons, ih, mem_insertDescBy, List.mem_cons]
    tauto

/-- The descending stable sort is a permutation as far as membership goes. -/
theorem mem_stableSortDescBy (k : α → Nat) (l : List α) (a : α) :
    a ∈ stableSortDescBy k l ↔ a ∈ l := by
  unfold stableSortDescBy
  rw [mem_foldl_insertDescBy]
  simp

/-- Descending insertion preserves the descending-by-key ordering. -/
theorem pairwise_insertDescBy (k : α → Nat) (x : α) (l : List α)
    (h : l.Pairwise (fun a b => k b ≤ k a)) :
    (insertDescBy k x l).Pairwise (fun a b => k b ≤ k a) := by
  induction l with
  | nil => simp [insertDescBy]
  | cons y ys ih =>
    rcases List.pairwise_cons.mp h with ⟨hy, hys⟩
    by_cases hc : k x ≤ k y
    · rw [insertDescBy, if_pos hc]
      refine List.pairwise_cons.mpr ⟨?_, ih hys⟩
      intro b hb
      rcases (mem_insertDescBy k x b ys).mp hb with rfl | hbys
      · exact hc
      · exact hy b hbys
    · rw [insertDescBy, if_neg hc]
      refine List.pairwise_cons.mpr ⟨?_, h⟩
      intro b hb
      have hyx : k y ≤ k x := Nat.le_of_lt (Nat.lt_of_not_le hc)
      rcases List.mem_cons.mp hb with rfl | hbys
      · exact hyx
      · exact Nat.le_trans (hy b hbys) hyx

/-- The fold implementing the descending stable sort preserves the
ordering of its accumulator. -/
theorem pairwise_foldl_insertDescBy (k : α → Nat) (l : List α) :
    ∀ acc, acc.Pairwise (fun a b => k b ≤ k a) →
      (l.foldl (fun acc x => insertDescBy k x acc) acc).Pairwise (fun a b => k b ≤ k a) := by
  induction l with
  | nil => intro acc h; simpa using h
  | cons x xs ih =>
    intro acc h
    exact ih _ (pairwise_insertDescBy k x acc h)

/-- The descending stable sort is descending by key. -/
theorem pairwise_stableSortDescBy (k : α → Nat) (l : List α) :
    (stableSortDescBy k l).Pairwise (fun a b => k b ≤ k a) :=
  pairwise_foldl_insertDescBy k l [] (by simp)

/-- Marking the first matching record completed cannot increase the
number of processing records. -/
theorem countP_processing_updateFirst_completed (now : Nat) (fn : String) :
    ∀ l : List FileEntry,
      (updateFirstBy (fun f => f.filename = fn)
          (fun f => { f with status := "completed", completedAt := some now }) l).countP
          (fun f => f.status = "processing")
        ≤ l.countP (fun f => f.status = "processing") := by
  intro l
  induction l with
  | nil => simp [updateFirstBy]
  | cons x xs ih =>
    rw [updateFirstBy]
    split
    · simp only [List.countP_cons]
      simp only [decide_eq_true_eq]
      rw [if_neg (by decide : ¬ ("completed" : String) = "processing")]
      omega
    · simp only [List.countP_cons]
      omega

/-! ### Claim theorems -/

/-- Claim C1: for every tracked issue with state closed, the workflow
state machine check_copilot_workflow_status returns the terminal state
completed; and when no closing pull request is found for the issue,
is_issue_done returns true (a manual close is accepted as done). -/
theorem closed_issue_completed_and_done (env : Env) (issue : Issue)
    (hclosed : issue.state = "closed") :
    check_copilot_workflow_status env issue = "completed" ∧
      (get_closing_pr_for_issue env issue.number = none → is_issue_done env issue = true) := by
  constructor
  · unfold check_copilot_workflow_status
    rw [if_pos hclosed]
  · intro hnone
    unfold is_issue_done
    rw [if_neg (by simp [hclosed]), hnone]

/-- Witness for C1 at a concrete closed issue with an empty timeline. -/
theorem closed_issue_completed_and_done_witness :
    check_copilot_workflow_status envBase issueClosed3 = "completed" ∧
      (get_closing_pr_for_issue envBase issueClosed3.number = none →
        is_issue_done envBase issueClosed3 = true) :=
  closed_issue_completed_and_done envBase issueClosed3 (by decide)

/-- Claim C3 counterexample: a pull request whose mergeable field is
unknown (JSON null) is rejected by is_pr_ready_to_merge with the
conflicts reason, even though every later check would accept it — the
claim says unknown passes the mergeable check and is judged by the
later checks. -/
theorem mergeable_unknown_gets_conflicts_reason :
    is_pr_ready_to_merge envBase prUnknownMergeable =
      (false, "PR is not mergeable (conflicts or other issues)") ∧
    (readyAfterMergeableChecks envBase prUnknownMergeable).1 = true := by
  constructor <;> decide

/-- Claim C3 (amended): past the prior blocked-state check, the
mergeable check of is_pr_ready_to_merge rejects with the conflicts
reason exactly when the mergeable field is falsy — no or unknown — and
only mergeable yes passes on to the later checks. -/
theorem mergeable_check_rejects_no_and_unknown (env : Env) (pr : PRDetails)
    (hnb : pr.mergeableState ≠ some "blocked") :
    (mergeableTruthy pr.mergeable = false →
      is_pr_ready_to_merge env pr =
        (false, "PR is not mergeable (conflicts or other issues)")) ∧
    (mergeableTruthy pr.mergeable = true →
      is_pr_ready_to_merge env pr = readyAfterMergeableChecks env pr) := by
  constructor <;> intro h <;> unfold is_pr_ready_to_merge <;>
    rw [if_neg hnb] <;> simp [h]

/-- Witness for the amended C3 at the concrete unknown-mergeable request. -/
theorem mergeable_check_rejects_no_and_unknown_witness :
    (mergeableTruthy prUnknownMergeable.mergeable = false →
      is_pr_ready_to_merge envBase prUnknownMergeable =
        (false, "PR is not mergeable (conflicts or other issues)")) ∧
    (mergeableTruthy prUnknownMergeable.mergeable = true →
      is_pr_ready_to_merge envBase prUnknownMergeable =
        readyAfterMergeableChecks envBase prUnknownMergeable) :=
  mergeable_check_rejects_no_and_unknown envBase prUnknownMergeable (by decide)

/-- Claim C6 counterexample: from a state satisfying the at-most-one-
processing invariant, mark_file_as_processing on a different file
produces two processing records, so the operation does not preserve the
invariant. -/
theorem mark_processing_two_processing_records :
    atMostOneProcessing stOneProcessing ∧
    ¬ atMostOneProcessing (mark_file_as_processing 5 "002-b.md" 2 stOneProcessing) := by
  constructor <;> decide

/-- Claim C6 (amended): mark_file_as_completed preserves the invariant
that at most one persisted record has status processing, and
mark_file_as_processing preserves it provided every pre-existing
processing record is for the very file being marked; without that
precondition it can create a second processing record. -/
theorem state_store_processing_invariant :
    (∀ now fn s, atMostOneProcessing s →
      atMostOneProcessing (mark_file_as_completed now fn s)) ∧
    (∀ now fn n s,
      (∀ e ∈ s.processedFiles, e.status = "processing" → e.filename = fn) →
      atMostOneProcessing (mark_file_as_processing now fn n s)) := by
  constructor
  · intro now fn s hs
    unfold atMostOneProcessing processingCount at *
    unfold mark_file_as_completed
    exact Nat.le_trans (countP_processing_updateFirst_completed now fn s.processedFiles) hs
  · intro now fn n s hpre
    unfold atMostOneProcessing processingCount
    unfold mark_file_as_processing
    simp only [List.countP_append]
    have hz : (s.processedFiles.filter (fun f => !(f.filename = fn))).countP
        (fun f => f.status = "processing") = 0 := by
      rw [List.countP_eq_zero]
      intro e he hproc
      have hmem := List.mem_filter.mp he
      have hne : e.filename ≠ fn := by
        have := hmem.2
        simpa using this
      exact hne (hpre e hmem.1 (by simpa using hproc))
    rw [hz]
    simp

/-- Witness for the amended C6: both operations applied at a concrete
single-processing state. -/
theorem state_store_processing_invariant_witness :
    atMostOneProcessing (mark_file_as_completed 5 "001-a.md" stOneProcessing) ∧
    atMostOneProcessing (mark_file_as_processing 5 "001-a.md" 2 stOneProcessing) :=
  ⟨state_store_processing_invariant.1 5 "001-a.md" stOneProcessing (by decide),
   state_store_processing_invariant.2 5 "001-a.md" 2 stOneProcessing (by decide)⟩

/-- Claim C5: for every pull request whose author is not the automated
agent and whose latest per-reviewer verdicts contain zero approved
verdicts, is_pr_ready_to_merge returns not ready, regardless of its
other fields. -/
theorem nonagent_without_approval_not_ready (env : Env) (pr : PRDetails)
    (hauthor : pr.authorLogin ≠ "copilot-swe-agent")
    (hzero : (latestReviews (env.reviewsFor pr.number)).countP
      (fun p => p.2.state = "APPROVED") = 0) :
    (is_pr_ready_to_merge env pr).1 = false := by
  unfold is_pr_ready_to_merge readyAfterMergeableChecks botStatusChecksVerdict
  simp only []
  repeat' split
  all_goals simp_all

/-- Witness for C5 at a concrete human-authored request without reviews. -/
theorem nonagent_without_approval_not_ready_witness :
    (is_pr_ready_to_merge envBase prHumanNoApproval).1 = false :=
  nonagent_without_approval_not_ready envBase prHumanNoApproval (by decide) (by decide)

/-- Claim C4: every pull request returned by find_related_prs_for_issue
is authored by the automated agent and was created no earlier than five
minutes (300 s) before the issue's creation, and the returned list is
sorted by creation time descending. -/
theorem related_prs_agent_window_sorted (env : Env) (issue : Issue) :
    (∀ pr ∈ find_related_prs_for_issue env issue,
        pr.authorLogin = "copilot-swe-agent" ∧ issue.createdAt ≤ pr.createdAt + 300) ∧
    (find_related_prs_for_issue env issue).Pairwise
      (fun a b => b.createdAt ≤ a.createdAt) := by
  constructor
  · intro pr hmem
    unfold find_related_prs_for_issue at hmem
    rw [mem_stableSortDescBy] at hmem
    have hp : relatedPrTest issue pr = true := List.of_mem_filter hmem
    unfold relatedPrTest at hp
    by_cases hskip : pr.createdAt + 300 < issue.createdAt
    · rw [if_pos hskip] at hp
      exact absurd hp (by simp)
    · rw [if_neg hskip] at hp
      simp only [Bool.and_eq_true, decide_eq_true_eq] at hp
      exact ⟨hp.1, by omega⟩
  · unfold find_related_prs_for_issue
    exact pairwise_stableSortDescBy _ _

/-- Witness for C4 at a concrete environment whose matcher returns the
agent-authored request. -/
theorem related_prs_agent_window_sorted_witness :
    prOpenReady.authorLogin = "copilot-swe-agent" ∧
      issueOpen5.createdAt ≤ prOpenReady.createdAt + 300 :=
  (related_prs_agent_window_sorted envMerge issueOpen5).1 prOpenReady (by decide)

/-- Claim C8: when the local issues directory is absent, the queue
reader reports the failure (an error log) and yields no file, and the
caller's dispatch step treats it as nothing to do: no issue creation, an
unchanged state, and no crash; get_next_file behaves the same way. -/
theorem missing_dir_no_file_no_dispatch (env : Env) (s : ProcState)
    (h : env.localFiles = none) :
    get_next_unprocessed_file env s =
      (none, s, [BotAction.errorLog "Issues directory does not exist"]) ∧
    dispatchNextFile env s =
      (false, s, [BotAction.errorLog "Issues directory does not exist"]) ∧
    get_next_file env none = none := by
  have h1 : get_next_unprocessed_file env s =
      (none, s, [BotAction.errorLog "Issues directory does not exist"]) := by
    unfold get_next_unprocessed_file
    rw [h]
  refine ⟨h1, ?_, ?_⟩
  · unfold dispatchNextFile
    rw [h1]
  · unfold get_next_file
    rw [h]

/-- Witness for C8 at the concrete environment without a directory. -/
theorem missing_dir_no_file_no_dispatch_witness :
    get_next_unprocessed_file envNoDir stEmpty =
      (none, stEmpty, [BotAction.errorLog "Issues directory does not exist"]) ∧
    dispatchNextFile envNoDir stEmpty =
      (false, stEmpty, [BotAction.errorLog "Issues directory does not exist"]) ∧
    get_next_file envNoDir none = none :=
  missing_dir_no_file_no_dispatch envNoDir stEmpty (by decide)

/-- Claim C10: when the next work item's file is empty, create_issue
fails with the file-is-empty error and no issue is created, and because
mark_file_as_processing runs only after create_issue succeeds, the
failed dispatch returns the state exactly as the queue reader produced
it — the file is never recorded as processing. -/
theorem empty_file_dispatch_unchanged (env : Env) (s : ProcState)
    (f : String) (s1 : ProcState) (acts : List BotAction)
    (hempty : env.fileContent f = "")
    (hnext : get_next_unprocessed_file env s = (some f, s1, acts)) :
    create_issue env f = Except.error "File is empty" ∧
    dispatchNextFile env s = (false, s1, acts) := by
  have hci : create_issue env f = Except.error "File is empty" := by
    unfold create_issue
    rw [hempty]
    rfl
  refine ⟨hci, ?_⟩
  simp [dispatchNextFile, hnext, hci]

/-- Witness for C10: a queue holding a single empty file. -/
theorem empty_file_dispatch_unchanged_witness :
    create_issue envEmptyFile "001-empty.md" = Except.error "File is empty" ∧
    dispatchNextFile envEmptyFile stEmpty = (false, stEmpty, []) :=
  empty_file_dispatch_unchanged envEmptyFile stEmpty "001-empty.md" stEmpty []
    (by decide) (by decide)

/-- Claim C7 counterexample: with an empty local queue and no tracker
issues nothing is pending, yet the single-shot run reports no action and
exits 1 — the claim says an exit code of 0 also signals nothing pending. -/
theorem empty_queue_no_issues_exit_one :
    (promote_next_issue envBase stEmpty).1 = false ∧
      mainSingleShotExit envBase stEmpty = 1 := by
  constructor <;> decide

/-- Claim C7 (amended): in single-shot mode the process exits 0 exactly
when the decision step reports an action taken (issue dispatched or
pull request merged); every other outcome exits 1, including nothing
pending — in particular, with an empty local queue and no tracker
issues the decision is no action and the exit code is 1. -/
theorem single_shot_exit_zero_iff_action :
    (∀ env s, mainSingleShotExit env s = 0 ↔ (promote_next_issue env s).1 = true) ∧
    (∀ env s, env.botIssuesAsc = [] → env.localFiles = some [] →
      resumeActiveIssue s = none →
      (promote_next_issue env s).1 = false ∧ mainSingleShotExit env s = 1) := by
  constructor
  · intro env s
    unfold mainSingleShotExit
    cases h : (promote_next_issue env s).1 <;> simp [h]
  · intro env s hb hl hr
    have hfalse : (promote_next_issue env s).1 = false := by
      have hstep : ∀ s' : ProcState,
          (promoteStep2 env s' (get_last_bot_issue env)).1 = false := by
        intro s'
        unfold get_last_bot_issue
        rw [hb]
        unfold promoteStep2 dispatchNextFile get_next_unprocessed_file
        rw [hl]
        rfl
      cases hrc : s.resumeContext with
      | none =>
        simp only [promote_next_issue, hrc]
        exact hstep s
      | some rc =>
        cases hai : rc.activeIssue with
        | none =>
          simp only [promote_next_issue, hrc, hai]
          exact hstep s
        | some info =>
          unfold resumeActiveIssue at hr
          rw [hrc] at hr
          simp only [hai] at hr
          exact absurd hr (by simp)
    constructor
    · exact hfalse
    · unfold mainSingleShotExit
      rw [hfalse]
      rfl

/-- Witness for the amended C7 at the concrete empty environment. -/
theorem single_shot_exit_zero_iff_action_witness :
    (promote_next_issue envBase stEmpty).1 = false ∧
      mainSingleShotExit envBase stEmpty = 1 :=
  single_shot_exit_zero_iff_action.2 envBase stEmpty (by decide) (by decide) (by decide)

/-- An approval-only action list contains no merge action. -/
theorem approveActs_no_merge (n : Nat) (b : Bool) :
    ((if b then [BotAction.approve n] else []).any BotAction.isMergeAction) = false := by
  cases b <;> rfl

/-- Case analysis of auto_approve_and_merge_pr: either its action trace
contains no merge, or the request was fetched and found ready both
before the approval and on the post-delay re-fetch, and the trace ends
with exactly the squash merge of that request. -/
theorem auto_approve_merge_cases (env : Env) (issue : Issue) :
    ((auto_approve_and_merge_pr env issue).2.any BotAction.isMergeAction = false) ∨
    (∃ prNum pd upd commitTitle,
      env.prById prNum = some pd ∧ (is_pr_ready_to_merge env pd).1 = true ∧
      env.prByIdLater prNum = some upd ∧ (is_pr_ready_to_merge env upd).1 = true ∧
      ((auto_approve_and_merge_pr env issue).2 =
          [BotAction.merge prNum commitTitle (mergeCommitMessage issue.number) "squash"] ∨
       (auto_approve_and_merge_pr env issue).2 =
          [BotAction.approve prNum,
           BotAction.merge prNum commitTitle (mergeCommitMessage issue.number) "squash"])) := by
  unfold auto_approve_and_merge_pr
  simp only []
  split
  · left; rfl
  · next relatedPr heqfind =>
    split
    · left; rfl
    · next prDetails hpr =>
      split
      · left; rfl
      · next hready =>
        split
        · left; exact approveActs_no_merge relatedPr.number _
        · next hnofail =>
          split
          · left; exact approveActs_no_merge relatedPr.number _
          · next updatedPr hupd =>
            split
            · left; exact approveActs_no_merge relatedPr.number _
            · next hready2 =>
              right
              have h2 : (is_pr_ready_to_merge env prDetails).1 = true := by
                cases h : (is_pr_ready_to_merge env prDetails).1
                · exact absurd h hready
                · rfl
              have h4 : (is_pr_ready_to_merge env updatedPr).1 = true := by
                cases h : (is_pr_ready_to_merge env updatedPr).1
                · exact absurd h hready2
                · rfl
              refine ⟨relatedPr.number, prDetails, updatedPr,
                "Merge PR #" ++ toString relatedPr.number ++ ": " ++ relatedPr.title,
                hpr, h2, hupd, h4, ?_⟩
              split
              · right; rfl
              · left; rfl

/-- Claim C2: auto_approve_and_merge_pr never issues the merge call
unless the readiness check passed both on the request fetched before
submitting the approval and again on the request re-fetched after the
settle delay; when it merges it uses the squash strategy with a commit
message referencing the resolved issue, and a failed post-approval
re-check aborts the operation without merging. -/
theorem merge_requires_double_readiness (env : Env) (issue : Issue)
    (hmerge : (auto_approve_and_merge_pr env issue).2.any BotAction.isMergeAction = true) :
    ∃ prNum pd upd,
      env.prById prNum = some pd ∧ (is_pr_ready_to_merge env pd).1 = true ∧
      env.prByIdLater prNum = some upd ∧ (is_pr_ready_to_merge env upd).1 = true ∧
      ∀ a ∈ (auto_approve_and_merge_pr env issue).2, a.isMergeAction = true →
        a.mergeNumberOf = prNum ∧ a.mergeMethodOf = "squash" ∧
        strContains a.mergeMessageOf ("Resolves #" ++ toString issue.number) = true := by
  rcases auto_approve_merge_cases env issue with hno | ⟨prNum, pd, upd, ct, h1, h2, h3, h4, htr⟩
  · rw [hno] at hmerge
    exact absurd hmerge (by simp)
  · refine ⟨prNum, pd, upd, h1, h2, h3, h4, ?_⟩
    intro a ha hma
    have hmsg : strContains (mergeCommitMessage issue.number)
        ("Resolves #" ++ toString issue.number) = true :=
      strContains_append_self ("Resolves #" ++ toString issue.number) _
    rcases htr with htr | htr <;> rw [htr] at ha
    · rcases List.mem_singleton.mp ha with rfl
      exact ⟨rfl, rfl, hmsg⟩
    · rcases List.mem_cons.mp ha with rfl | ha2
      · exact absurd hma (by simp [BotAction.isMergeAction])
      · rcases List.mem_singleton.mp ha2 with rfl
        exact ⟨rfl, rfl, hmsg⟩

/-- Witness for C2 at a concrete environment in which the merge is
actually performed. -/
theorem merge_requires_double_readiness_witness :
    ∃ prNum pd upd,
      envMerge.prById prNum = some pd ∧ (is_pr_ready_to_merge envMerge pd).1 = true ∧
      envMerge.prByIdLater prNum = some upd ∧ (is_pr_ready_to_merge envMerge upd).1 = true ∧
      ∀ a ∈ (auto_approve_and_merge_pr envMerge issueOpen5).2, a.isMergeAction = true →
        a.mergeNumberOf = prNum ∧ a.mergeMethodOf = "squash" ∧
        strContains a.mergeMessageOf ("Resolves #" ++ toString issueOpen5.number) = true :=
  merge_requires_double_readiness envMerge issueOpen5 (by decide)

/-- The polling loop performs at most as many fetch attempts as its
remaining budget. -/
theorem waitAux_attempts_le (env : Env) (fetchAt : Nat → Option PRDetails) :
    ∀ remaining attempt, (waitAux env fetchAt remaining attempt).2 ≤ remaining := by
  intro remaining
  induction remaining with
  | zero => intro attempt; simp [waitAux]
  | succ r ih =>
    intro attempt
    unfold waitAux
    cases hf : fetchAt attempt with
    | none => simpa using Nat.succ_le_succ (ih (attempt + 1))
    | some pd =>
      simp only []
      split
      · simp
      · split
        · simp
        · simpa using Nat.succ_le_succ (ih (attempt + 1))

/-- If no attempt within the budget observes a ready request, the loop
reports not ready. -/
theorem waitAux_never_ready_false (env : Env) (fetchAt : Nat → Option PRDetails) :
    ∀ remaining attempt,
      (∀ i, attempt ≤ i → i < attempt + remaining → fetchReadyAt env fetchAt i = false) →
      (waitAux env fetchAt remaining attempt).1 = false := by
  intro remaining
  induction remaining with
  | zero => intro attempt _; rfl
  | succ r ih =>
    intro attempt h
    unfold waitAux
    cases hf : fetchAt attempt with
    | none =>
      simp only []
      exact ih (attempt + 1) (fun i h1 h2 => h i (by omega) (by omega))
    | some pd =>
      have hra : (is_pr_ready_to_merge env pd).1 = false := by
        have hh := h attempt (Nat.le_refl _) (by omega)
        unfold fetchReadyAt at hh
        rw [hf] at hh
        exact hh
      simp only []
      split
      · next hcond => rw [hra] at hcond; exact absurd hcond (by simp)
      · split
        · rfl
        · exact ih (attempt + 1) (fun i h1 h2 => h i (by omega) (by omega))

/-- Claim C9: wait_for_pr_readiness always terminates after at most
(max_wait_minutes * 60) // check_interval_seconds fixed-interval
attempts, and if the request never becomes ready within that hard
timeout it gives up and returns not-ready. -/
theorem wait_for_pr_readiness_bounded (env : Env) (fetchAt : Nat → Option PRDetails)
    (maxWaitMinutes checkIntervalSeconds : Nat) (_hc : 0 < checkIntervalSeconds) :
    (wait_for_pr_readiness env fetchAt maxWaitMinutes checkIntervalSeconds).2
        ≤ maxWaitMinutes * 60 / checkIntervalSeconds ∧
    ((∀ i, i < maxWaitMinutes * 60 / checkIntervalSeconds →
        fetchReadyAt env fetchAt i = false) →
      (wait_for_pr_readiness env fetchAt maxWaitMinutes checkIntervalSeconds).1 = false) := by
  constructor
  · exact waitAux_attempts_le env fetchAt _ 0
  · intro hnr
    exact waitAux_never_ready_false env fetchAt _ 0 (fun i h1 h2 => hnr i (by omega))

/-- Witness for C9 at the default parameters (ten minutes, thirty-second
interval) with every fetch failing. -/
theorem wait_for_pr_readiness_bounded_witness :
    (wait_for_pr_readiness envBase (fun _ => none) 10 30).2 ≤ 10 * 60 / 30 ∧
    ((∀ i, i < 10 * 60 / 30 → fetchReadyAt envBase (fun _ => none) i = false) →
      (wait_for_pr_readiness envBase (fun _ => none) 10 30).1 = false) :=
  wait_for_pr_readiness_bounded envBase (fun _ => none) 10 30 (by decide)
